import Mathlib

/-!
Shallow embedding of the timeline/beat engine and the audio utilities of the
Learnable repository (backend video-generation pipeline), together with
theorems settling the specification claims about them.

Python floats are modelled as exact rationals: every numeric value the
claims mention (2.0, 4.0, 10.0, the caps 120.0 and 60.0, sample rates) is
exactly representable in binary floating point, and the additions,
subtractions, comparisons, min and max the code performs on such values are
exact, so the rational model computes the same values the Python code does
on these inputs.
-/

namespace Learnable

deriving instance DecidableEq for Except

/-- Seconds, modelling Python float time values (see module comment). -/
abbrev Time := ℚ

/-- Embeds safe_wait from src/backend/templates/gen_video_template.py
(lines 39-41) and, identically, src/backend/3b1b_manimations/ai_gen_video.py
(lines 30-32): the amount of time scene.wait is actually called with, for a
requested wait of `seconds` and a cap of `cap`:
scene.wait(max(0.0, min(seconds, cap))). -/
def safeWaitAmount (seconds cap : Time) : Time :=
  max 0 (min seconds cap)

/-- Default cap of safe_wait in gen_video_template.py and ai_gen_video.py:
cap: float = 120.0. -/
def templateCap : Time := 120

/-- Default cap of safe_wait in
src/backend/3b1b_manimations/backtracking_video1.py line 16:
cap: float = 60.0. -/
def backtrackingCap : Time := 60

/-- safe_wait as defined in backtracking_video1.py, applied with its default
cap of 60.0 (as the BacktrackingCorePattern scene calls it). -/
def safeWaitBacktracking (seconds : Time) : Time :=
  safeWaitAmount seconds backtrackingCap

/-- A WAV artifact as Python's wave module exposes it: header fields
nchannels, sampwidth (bytes per sample) and framerate (Hz), plus the PCM
frame data. For files read or written through the wave module the header
frame count and the data agree, so getnframes is `frames.length`. -/
structure Wav where
  nchannels : Nat
  sampwidth : Nat
  framerate : Nat
  frames : List Nat
  deriving DecidableEq, Repr

/-- getnframes of the wave module. -/
def Wav.nframes (w : Wav) : Nat := w.frames.length

/-- getparams()[:4] = (nchannels, sampwidth, framerate, nframes): the tuple
the concat_wavs functions compare between inputs. Note that it includes the
frame count, not only the three format parameters. -/
def Wav.params4 (w : Wav) : Nat × Nat × Nat × Nat :=
  (w.nchannels, w.sampwidth, w.framerate, w.nframes)

/-- The three format parameters (sample rate, channel count, sample width)
that the spec and the concat_wavs docstrings talk about. -/
def Wav.format3 (w : Wav) : Nat × Nat × Nat :=
  (w.nchannels, w.sampwidth, w.framerate)

/-- Error outcomes of the duration probe. The Python body is
`return wf.getnframes() / float(wf.getframerate())`: when the header
framerate is 0 Python raises a raw ZeroDivisionError. The spec instead asks
for a MalformedAudio error; the type carries both outcomes so the two can be
told apart. -/
inductive ProbeError
  | zeroDivisionError
  | malformedAudio
  deriving DecidableEq, Repr

/-- Embeds wav_duration_seconds (gen_video_template.py lines 35-37,
ai_gen_audio.py lines 33-36, backtracking_gen_audio.py,
backtracking_video1.py): nframes / float(framerate); Python raises
ZeroDivisionError when the framerate is 0, there is no explicit guard. -/
def wav_duration_seconds (w : Wav) : Except ProbeError Time :=
  if w.framerate = 0 then .error .zeroDivisionError
  else .ok ((w.nframes : Time) / (w.framerate : Time))

/-- Error outcomes of concat_wavs: ValueError on an empty input list,
RuntimeError("WAV format mismatch: ...") identifying the first offending
input by position. -/
inductive ConcatError
  | emptyInput
  | formatMismatch (index : Nat)
  deriving DecidableEq, Repr

/-- An operation performed on the destination artifact of concat_wavs. -/
inductive DestOp
  | openOut
  | writeFrames (fr : List Nat)
  deriving DecidableEq, Repr

/-- The validation-and-read loop of concat_wavs: for each input in order,
compare its getparams()[:4] against the first input's and collect its
readframes output; the first mismatch raises, identifying that input. -/
def collectFrames (base : Nat × Nat × Nat × Nat) :
    List Wav → Nat → Except ConcatError (List (List Nat))
  | [], _ => .ok []
  | w :: rest, i =>
      if w.params4 = base then
        match collectFrames base rest (i + 1) with
        | .ok tails => .ok (w.frames :: tails)
        | .error e => .error e
      else
        .error (.formatMismatch i)

/-- Embeds concat_wavs (ai_gen_audio.py lines 39-61,
backtracking_gen_audio.py lines 31-52). Returns the list of operations
performed on the destination together with the outcome. In the source every
format check and every readframes call happens before the destination is
opened for writing, so a raised mismatch leaves the destination untouched:
the destination-operation trace of a failed call is empty. On success the
wave module writes each collected frame block in order and patches the
output header on close to the number of frames actually written. -/
def concat_wavs (wavs : List Wav) : List DestOp × Except ConcatError Wav :=
  match wavs with
  | [] => ([], .error .emptyInput)
  | w0 :: _ =>
      match collectFrames w0.params4 wavs 0 with
      | .error e => ([], .error e)
      | .ok framesAll =>
          (DestOp.openOut :: framesAll.map DestOp.writeFrames,
            .ok ⟨w0.nchannels, w0.sampwidth, w0.framerate, framesAll.flatten⟩)

/-- A beat: (time_in_seconds_from_start, function_to_run). Actions are
opaque side-effecting callables; an identifier stands for one so that
invocations can be counted and distinguished. -/
structure Beat where
  t : Time
  actionId : Nat
  deriving DecidableEq, Repr

/-- Insertion of a beat into a list, placing it immediately before the first
element of greater-or-equal timestamp (so after all earlier-inserted beats
of strictly smaller timestamp, and before equal-timestamp ones it is
inserted on top of). -/
def insertBeat (a : Beat) : List Beat → List Beat
  | [] => [a]
  | b :: l => if a.t ≤ b.t then a :: b :: l else b :: insertBeat a l

/-- Embeds `sorted(self.build_timeline(), key=lambda x: x[0])`
(gen_video_template.py line 110, ai_gen_video.py line 108). Python's sorted
is a stable ascending sort by the key; this insertion sort is stable and
ascending by timestamp, hence extensionally equal to it on every input. -/
def sortBeats : List Beat → List Beat
  | [] => []
  | a :: l => insertBeat a (sortBeats l)

/-- An observable step performed by NarratedTimelineScene.construct: a
scene.wait of some length (via safe_wait) or an action invocation. -/
inductive Event
  | wait (seconds : Time)
  | action (id : Nat)
  deriving DecidableEq, Repr

/-- The failure construct raises: RuntimeError("Missing ...") when the
narration artifact does not exist. -/
inductive PlayError
  | missingNarration
  deriving DecidableEq, Repr

/-- The beat loop of NarratedTimelineScene.construct: given the sorted
timeline and t_prev, the events performed (per beat, a clamped wait then the
action) and the final value of t_prev. -/
def beatLoop : List Beat → Time → List Event × Time
  | [], tPrev => ([], tPrev)
  | b :: rest, tPrev =>
      let next := beatLoop rest b.t
      (Event.wait (safeWaitAmount (b.t - tPrev) templateCap) ::
        Event.action b.actionId :: next.1, next.2)

/-- Embeds NarratedTimelineScene.construct (gen_video_template.py lines
100-120; ai_gen_video.py is identical). `narrationExists` models
narration.exists(); `dur` models the value wav_duration_seconds(narration)
returns; actions are instantaneous test doubles, so the waits are the only
time spent. The existence check precedes the duration read, the timeline
build and the loop, so a failing call performs no events at all. -/
def construct (narrationExists : Bool) (dur : Time) (timeline : List Beat) :
    List Event × Except PlayError Unit :=
  if narrationExists then
    let run := beatLoop (sortBeats timeline) 0
    (run.1 ++ [Event.wait (safeWaitAmount (dur - run.2) templateCap)], .ok ())
  else
    ([], .error .missingNarration)

/-- The wait contribution of one event. -/
def Event.waitAmount : Event → Time
  | .wait s => s
  | .action _ => 0

/-- Total wait time accumulated across a list of performed events. -/
def totalWait (evs : List Event) : Time :=
  (evs.map Event.waitAmount).sum

/-- Whether an event is an action invocation. -/
def isActionEvent : Event → Bool
  | .action _ => true
  | .wait _ => false

/-- Number of action invocations among the performed events. -/
def actionCount (evs : List Event) : Nat :=
  (evs.filter isActionEvent).length

/-- The ASCII whitespace characters Python's str.strip() removes. -/
def isPySpace (c : Char) : Bool :=
  c = ' ' || c = '\t' || c = '\n' || c = '\r' || c = '\x0b' || c = '\x0c'

/-- Python str.strip(): remove leading and trailing whitespace. Strings are
modelled as lists of characters. -/
def pyStrip (s : List Char) : List Char :=
  ((s.dropWhile isPySpace).reverse.dropWhile isPySpace).reverse

/-- Python str.split("\n"): never empty, one entry per newline plus one. -/
def splitNl : List Char → List (List Char)
  | [] => [[]]
  | c :: cs =>
      match splitNl cs with
      | [] => [[]]
      | line :: rest =>
          if c = '\n' then [] :: line :: rest else (c :: line) :: rest

/-- Python "\n".join(lines). -/
def joinNl (lines : List (List Char)) : List Char :=
  List.intercalate ['\n'] lines

/-- Python list slice lines[1:-1]: elements from index 1 up to but excluding
the last. -/
def sliceOneToLastButOne (l : List (List Char)) : List (List Char) :=
  (l.drop 1).take (l.length - 2)

/-- Embeds strip_code_fences (src/backend/lectures_generator.py lines
69-85): lines = code.strip().split("\n"); if len(lines) <= 2 the original
code is returned as-is; otherwise "\n".join(lines[1:-1]). -/
def strip_code_fences (code : List Char) : List Char :=
  let lines := splitNl (pyStrip code)
  if lines.length ≤ 2 then code
  else joinNl (sliceOneToLastButOne lines)

/-! ## Helper lemmas -/

/-- Inserting a beat yields a permutation of consing it. -/
theorem insertBeat_perm (a : Beat) (l : List Beat) :
    (insertBeat a l).Perm (a :: l) := by
  induction l with
  | nil => exact List.Perm.refl _
  | cons b l ih =>
    simp only [insertBeat]
    by_cases h : a.t ≤ b.t
    · simp [h]
    · rw [if_neg h]
      exact (ih.cons b).trans (List.Perm.swap a b l)

/-- Insertion preserves sortedness by timestamp. -/
theorem insertBeat_pairwise {a : Beat} {l : List Beat}
    (hl : l.Pairwise fun x y => x.t ≤ y.t) :
    (insertBeat a l).Pairwise fun x y => x.t ≤ y.t := by
  induction l with
  | nil => simp [insertBeat]
  | cons b l ih =>
    rw [List.pairwise_cons] at hl
    obtain ⟨hb, hl'⟩ := hl
    simp only [insertBeat]
    by_cases h : a.t ≤ b.t
    · rw [if_pos h, List.pairwise_cons]
      refine ⟨?_, List.pairwise_cons.mpr ⟨hb, hl'⟩⟩
      intro x hx
      rcases List.mem_cons.mp hx with rfl | hx'
      · exact h
      · exact le_trans h (hb x hx')
    · rw [if_neg h, List.pairwise_cons]
      refine ⟨?_, ih hl'⟩
      intro x hx
      rcases List.mem_cons.mp ((insertBeat_perm a l).mem_iff.mp hx) with rfl | hx'
      · exact (not_le.mp h).le
      · exact hb x hx'

/-- Everything insertion walks past has a strictly smaller timestamp, so the
beats at any fixed timestamp are exactly those of the original list, with the
inserted beat put in front when its timestamp matches. -/
theorem insertBeat_filter (a : Beat) (l : List Beat) (q : Time) :
    (insertBeat a l).filter (fun b => decide (b.t = q)) =
      if a.t = q then a :: l.filter (fun b => decide (b.t = q))
      else l.filter (fun b => decide (b.t = q)) := by
  induction l with
  | nil => by_cases h : a.t = q <;> simp [insertBeat, h]
  | cons b l ih =>
    simp only [insertBeat]
    by_cases hab : a.t ≤ b.t
    · rw [if_pos hab]
      by_cases h : a.t = q <;> simp [List.filter_cons, h]
    · rw [if_neg hab]
      by_cases h : a.t = q
      · have hb : ¬b.t = q := fun hbq => hab (le_of_eq (hbq.trans h.symm).symm)
        simp [List.filter_cons, hb, ih, h]
      · simp [List.filter_cons, ih, h]

/-- Stability of the sort: the beats carrying any fixed timestamp appear in
the sorted output exactly in their insertion order. -/
theorem sortBeats_filter (l : List Beat) (q : Time) :
    (sortBeats l).filter (fun b => decide (b.t = q)) =
      l.filter (fun b => decide (b.t = q)) := by
  induction l with
  | nil => rfl
  | cons a l ih =>
    rw [sortBeats, insertBeat_filter, List.filter_cons]
    by_cases h : a.t = q <;> simp [h, ih]

/-- A successful validation loop returns exactly the inputs' frame blocks. -/
theorem collectFrames_ok {base : Nat × Nat × Nat × Nat} (ws : List Wav) :
    ∀ (i : Nat) (fs : List (List Nat)),
      collectFrames base ws i = .ok fs → fs = ws.map Wav.frames := by
  induction ws with
  | nil =>
    intro i fs h
    simp only [collectFrames] at h
    injection h with h
    simp [← h]
  | cons w rest ih =>
    intro i fs h
    simp only [collectFrames] at h
    split at h
    · cases hrec : collectFrames base rest (i + 1) with
      | ok tails =>
        rw [hrec] at h
        injection h with h
        rw [← h, List.map_cons, ih _ _ hrec]
      | error e => rw [hrec] at h; cases h
    · cases h

/-- The flattened frame data of a list of WAVs has as many frames as the
inputs have together. -/
theorem length_flatten_frames (l : List Wav) :
    (List.map Wav.frames l).flatten.length = (l.map Wav.nframes).sum := by
  induction l with
  | nil => rfl
  | cons w rest ih => simp [Wav.nframes, ih]

/-! ## Claims -/

/-- C1 (confirmed): with narrationDuration = 10.0, beats [(2.0, a), (4.0, b)]
and instantaneous actions, the play call performs waits of 2, then 2, then a
final 6 seconds, so the total wait time across the whole call is exactly
10.0 = 2 + 2 + 6. -/
theorem C1_total_duration_coverage :
    construct true 10 [⟨2, 0⟩, ⟨4, 1⟩] =
      ([Event.wait 2, Event.action 0, Event.wait 2, Event.action 1,
        Event.wait 6], Except.ok ()) ∧
    totalWait (construct true 10 [⟨2, 0⟩, ⟨4, 1⟩]).1 = 10 := by
  have h : construct true 10 [⟨2, 0⟩, ⟨4, 1⟩] =
      ([Event.wait 2, Event.action 0, Event.wait 2, Event.action 1,
        Event.wait 6], Except.ok ()) := by
    norm_num [construct, beatLoop, sortBeats, insertBeat, safeWaitAmount,
      templateCap, min_def, max_def]
  exact ⟨h, by rw [h]; norm_num [totalWait, Event.waitAmount]⟩

/-- C2 counterexample: backtracking_video1.py's safe_wait, at a requested
wait of 100 seconds, waits 60 seconds (its default cap is 60.0), not
max(0, min(100, 120)) = 100 as the claim's universal 120-second default
would have it. -/
theorem C2_backtracking_cap_counterexample :
    safeWaitBacktracking 100 = 60 ∧
      safeWaitBacktracking 100 ≠ max 0 (min 100 (120 : Time)) := by
  constructor <;>
    norm_num [safeWaitBacktracking, safeWaitAmount, backtrackingCap,
      min_def, max_def]

/-- C2 (corrected): every wait performed equals max(0, min(w, cap)) for the
scene's cap — in particular every negative requested wait is silenced to a
zero wait — and the cap defaults to 120 seconds in gen_video_template.py and
ai_gen_video.py, but to 60 seconds in backtracking_video1.py. -/
theorem C2_clamp_amended :
    (∀ w cap : Time, safeWaitAmount w cap = max 0 (min w cap)) ∧
    (∀ w : Time, w < 0 →
      safeWaitAmount w templateCap = 0 ∧ safeWaitBacktracking w = 0) ∧
    templateCap = 120 ∧ backtrackingCap = 60 := by
  refine ⟨fun w cap => rfl, fun w hw => ⟨?_, ?_⟩, rfl, rfl⟩
  · exact max_eq_left (le_trans (min_le_left _ _) hw.le)
  · exact max_eq_left (le_trans (min_le_left _ _) hw.le)

/-- Witness for C2: a requested wait of -5 seconds is silenced to zero by
both safe_wait variants. -/
theorem C2_clamp_amended_witness :
    safeWaitAmount (-5) templateCap = 0 ∧ safeWaitBacktracking (-5) = 0 :=
  C2_clamp_amended.2.1 (-5) (by norm_num)

/-- C3 (code bug): two WAVs sharing all three format parameters
(nchannels = 1, sampwidth = 2, framerate = 24000) but with frame counts 3
and 5 are rejected with a format mismatch identifying index 1, because
concat_wavs compares getparams()[:4], a tuple that also contains nframes —
contradicting its own docstring, which requires only sample rate, channels
and sample width to agree. -/
theorem C3_frame_count_mismatch_rejected :
    Wav.format3 ⟨1, 2, 24000, [7, 7, 7]⟩ =
      Wav.format3 ⟨1, 2, 24000, [9, 9, 9, 9, 9]⟩ ∧
    concat_wavs [⟨1, 2, 24000, [7, 7, 7]⟩, ⟨1, 2, 24000, [9, 9, 9, 9, 9]⟩] =
      ([], .error (.formatMismatch 1)) := by
  constructor
  · rfl
  · decide

/-- C4 counterexample: at framerate 0 the duration probe produces the raw
Python ZeroDivisionError — `nframes / float(0)` — not a MalformedAudio
error; there is no explicit guard in the code. -/
theorem C4_zero_rate_counterexample :
    wav_duration_seconds ⟨1, 2, 0, [0, 0]⟩ = .error .zeroDivisionError ∧
    wav_duration_seconds ⟨1, 2, 0, [0, 0]⟩ ≠ .error .malformedAudio := by
  constructor <;> decide

/-- C4 (corrected): the probe has no zero-rate guard: a zero sample rate
propagates the raw division-by-zero arithmetic fault to the caller, a
MalformedAudio error is never produced, and for positive sample rates the
probe returns nframes / framerate. -/
theorem C4_unguarded_zero_rate :
    (∀ w : Wav, w.framerate = 0 →
      wav_duration_seconds w = .error .zeroDivisionError) ∧
    (∀ w : Wav, 0 < w.framerate →
      wav_duration_seconds w = .ok ((w.nframes : Time) / (w.framerate : Time))) ∧
    (∀ w : Wav, wav_duration_seconds w ≠ .error .malformedAudio) := by
  refine ⟨fun w hw => by simp [wav_duration_seconds, hw],
    fun w hw => by simp [wav_duration_seconds, Nat.pos_iff_ne_zero.mp hw],
    fun w => ?_⟩
  by_cases hw : w.framerate = 0 <;> simp [wav_duration_seconds, hw]

/-- Witness for C4: the probe at a zero-rate artifact and at an ordinary
8000 Hz artifact with two frames. -/
theorem C4_unguarded_zero_rate_witness :
    wav_duration_seconds ⟨1, 2, 0, []⟩ = .error .zeroDivisionError ∧
    wav_duration_seconds ⟨1, 1, 8000, [3, 4]⟩ =
      .ok ((2 : Time) / (8000 : Time)) := by
  refine ⟨C4_unguarded_zero_rate.1 _ rfl, ?_⟩
  have h := C4_unguarded_zero_rate.2.1 ⟨1, 1, 8000, [3, 4]⟩ (by norm_num)
  norm_num [Wav.nframes] at h ⊢
  exact h

/-- C5 (confirmed): when the narration artifact does not exist, construct
fails with the missing-narration error before anything runs: for every
duration and every schedule the failing call performs no events at all, so
the number of action invocations is zero. -/
theorem C5_missing_narration_fail_fast :
    ∀ (dur : Time) (timeline : List Beat),
      construct false dur timeline = ([], .error .missingNarration) ∧
      actionCount (construct false dur timeline).1 = 0 := by
  intro dur timeline
  exact ⟨rfl, rfl⟩

/-- C6 (confirmed): beats added as [(5.0, x), (1.0, y), (5.0, z)] are
executed as [y, x, z]; in general the finalized sequence is a permutation of
the added beats, is sorted ascending by timestamp, and is insertion-stable:
the beats at each fixed timestamp appear in their insertion order. -/
theorem C6_beat_ordering_stable :
    sortBeats [⟨5, 0⟩, ⟨1, 1⟩, ⟨5, 2⟩] = [⟨1, 1⟩, ⟨5, 0⟩, ⟨5, 2⟩] ∧
    (∀ l : List Beat, (sortBeats l).Perm l) ∧
    (∀ l : List Beat, (sortBeats l).Pairwise fun x y => x.t ≤ y.t) ∧
    (∀ (l : List Beat) (q : Time),
      (sortBeats l).filter (fun b => decide (b.t = q)) =
        l.filter (fun b => decide (b.t = q))) := by
  refine ⟨?_, fun l => ?_, fun l => ?_, sortBeats_filter⟩
  · norm_num [sortBeats, insertBeat]
  · induction l with
    | nil => exact List.Perm.refl _
    | cons a l ih => exact (insertBeat_perm _ _).trans (ih.cons a)
  · induction l with
    | nil => simp [sortBeats]
    | cons a l ih => exact insertBeat_pairwise ih

/-- C7 counterexample: with an empty schedule and narrationDuration = 200
the final wait is clamped at the 120-second cap, so the total wait is 120,
not the 200 seconds the claim's universal statement requires. -/
theorem C7_cap_exceeded_counterexample :
    totalWait (construct true 200 []).1 = 120 ∧ (120 : Time) ≠ 200 := by
  constructor
  · norm_num [construct, beatLoop, sortBeats, safeWaitAmount, templateCap,
      totalWait, Event.waitAmount, min_def, max_def]
  · norm_num

/-- C7 (corrected): a play call with zero beats performs a single wait of
max(0, min(narrationDuration, 120)) and returns successfully (Done); the
total wait equals narrationDuration exactly when 0 ≤ narrationDuration ≤
the 120-second cap. -/
theorem C7_empty_schedule_amended :
    (∀ d : Time,
      construct true d [] =
        ([Event.wait (max 0 (min d templateCap))], Except.ok ())) ∧
    (∀ d : Time, 0 ≤ d → d ≤ templateCap →
      totalWait (construct true d []).1 = d) := by
  have hmain : ∀ d : Time,
      construct true d [] =
        ([Event.wait (max 0 (min d templateCap))], Except.ok ()) := by
    intro d
    simp [construct, sortBeats, beatLoop, safeWaitAmount]
  refine ⟨hmain, fun d h0 hcap => ?_⟩
  rw [hmain d]
  simp [totalWait, Event.waitAmount, min_eq_left hcap, max_eq_right h0]

/-- Witness for C7: an empty schedule with a 10-second narration waits
exactly 10 seconds. -/
theorem C7_empty_schedule_amended_witness :
    totalWait (construct true 10 []).1 = 10 :=
  C7_empty_schedule_amended.2 10 (by norm_num) (by norm_num [templateCap])

/-- C8 (code bug): whenever concat_wavs does produce a result its frame
count is the sum of the inputs' frame counts (no gap or overlap frames);
but sharing the three format parameters does not make it produce one:
inputs with format (1, 2, 8000) and frame counts 2 and 4 are rejected,
because the compared tuple getparams()[:4] also contains nframes. -/
theorem C8_additivity_blocked_by_frame_check :
    (∀ (wavs : List Wav) (tr : List DestOp) (w : Wav),
      concat_wavs wavs = (tr, Except.ok w) →
      w.nframes = (wavs.map Wav.nframes).sum) ∧
    Wav.format3 ⟨1, 2, 8000, [1, 2]⟩ =
      Wav.format3 ⟨1, 2, 8000, [3, 4, 5, 6]⟩ ∧
    concat_wavs [⟨1, 2, 8000, [1, 2]⟩, ⟨1, 2, 8000, [3, 4, 5, 6]⟩] =
      ([], .error (.formatMismatch 1)) := by
  refine ⟨?_, rfl, by decide⟩
  intro wavs tr w h
  match wavs with
  | [] => simp [concat_wavs] at h
  | w0 :: rest =>
    simp only [concat_wavs] at h
    cases hcf : collectFrames w0.params4 (w0 :: rest) 0 with
    | error e => rw [hcf] at h; simp at h
    | ok fs =>
      rw [hcf] at h
      have hfs := collectFrames_ok _ _ _ hcf
      have hw : w = ⟨w0.nchannels, w0.sampwidth, w0.framerate, fs.flatten⟩ := by
        have := congrArg Prod.snd h
        simpa using this.symm
      rw [hw]
      show fs.flatten.length = _
      rw [hfs]
      exact length_flatten_frames (w0 :: rest)

/-- Witness for C8: concatenating two equal-frame-count inputs succeeds and
the result's frame count 4 is the sum 2 + 2. -/
theorem C8_additivity_witness :
    (⟨1, 2, 8000, [1, 2, 3, 4]⟩ : Wav).nframes =
      ([⟨1, 2, 8000, [1, 2]⟩, ⟨1, 2, 8000, [3, 4]⟩].map Wav.nframes).sum :=
  C8_additivity_blocked_by_frame_check.1
    [⟨1, 2, 8000, [1, 2]⟩, ⟨1, 2, 8000, [3, 4]⟩]
    [DestOp.openOut, DestOp.writeFrames [1, 2], DestOp.writeFrames [3, 4]]
    ⟨1, 2, 8000, [1, 2, 3, 4]⟩ (by decide)

/-- C9 (confirmed): whenever concat_wavs fails with a format mismatch, no
operation at all was performed on the destination artifact: every format
check and frame read completes before the destination is opened, so a
mismatch leaves the destination untouched. -/
theorem C9_no_partial_write :
    ∀ (wavs : List Wav) (i : Nat),
      (concat_wavs wavs).2 = Except.error (ConcatError.formatMismatch i) →
      (concat_wavs wavs).1 = [] := by
  intro wavs i h
  match wavs with
  | [] => rfl
  | w0 :: rest =>
    simp only [concat_wavs] at h ⊢
    cases hcf : collectFrames w0.params4 (w0 :: rest) 0 with
    | error e => rfl
    | ok fs => rw [hcf] at h; simp at h

/-- Witness for C9: inputs with sample rates 16000 and 22050 fail with a
mismatch at index 1 and the destination-operation trace is empty. -/
theorem C9_no_partial_write_witness :
    (concat_wavs [⟨1, 2, 16000, [0]⟩, ⟨1, 2, 22050, [0]⟩]).2 =
      Except.error (ConcatError.formatMismatch 1) ∧
    (concat_wavs [⟨1, 2, 16000, [0]⟩, ⟨1, 2, 22050, [0]⟩]).1 = [] :=
  ⟨by decide, C9_no_partial_write [⟨1, 2, 16000, [0]⟩, ⟨1, 2, 22050, [0]⟩] 1
    (by decide)⟩

/-- Python's slice lines[1:-1] removes exactly the first and the last
element. -/
theorem sliceOneToLastButOne_eq (l : List (List Char)) :
    sliceOneToLastButOne l = (l.drop 1).dropLast := by
  rw [sliceOneToLastButOne, List.dropLast_eq_take, List.length_drop]
  congr 1

/-- C10 (confirmed): the code-fence stripper returns its input unchanged
when the stripped form has at most two lines, and otherwise unconditionally
deletes the stripped form's first and last lines — whatever they contain. -/
theorem C10_code_fence_stripping :
    (∀ s : List Char, (splitNl (pyStrip s)).length ≤ 2 →
      strip_code_fences s = s) ∧
    (∀ s : List Char, 2 < (splitNl (pyStrip s)).length →
      strip_code_fences s =
        joinNl (((splitNl (pyStrip s)).drop 1).dropLast)) := by
  constructor
  · intro s h
    simp [strip_code_fences, h]
  · intro s h
    rw [strip_code_fences]
    simp only [if_neg (not_le.mpr h)]
    rw [sliceOneToLastButOne_eq]

/-- Witness for C10: a two-line input is returned unchanged, and a
three-line input of plain code with no fence markers loses its first and
last lines, leaving only the middle one. -/
theorem C10_code_fence_stripping_witness :
    strip_code_fences ['x', '\n', 'y'] = ['x', '\n', 'y'] ∧
    strip_code_fences ['a', '\n', 'b', '\n', 'c'] = ['b'] := by
  refine ⟨C10_code_fence_stripping.1 ['x', '\n', 'y'] (by decide), ?_⟩
  have h := C10_code_fence_stripping.2 ['a', '\n', 'b', '\n', 'c'] (by decide)
  rw [h]; decide

end Learnable
